import Mathlib

/-!
# Verification of the `fxn` image-export pipeline

Shallow embedding of `src/features/images/images.rs`: the export
orchestrator (`export_images`), the per-task pipeline (`export_image`),
the optional WEBP re-encoding step (`convert_to_webp_if_necessary`),
the missing-asset policy (`check_image_missing_error`) and the path
builder (`image_drawable_dir`).

External collaborators (the Figma API client, the fetcher, the file
utilities, the name sanitizer, the suggestion generator and the
renderer) are not part of the source file; they are modelled as an
oracle environment `Env` of pure functions, and all observable effects
(renderer calls, API calls, file-system operations) are collected in an
ordered trace of `Action`s, so that the emission order and the
file-system footprint of the pipeline can be stated and proved.
-/

namespace Fxn

/-- Modelled from the spec: the target image format of the export
(`models::config::ImageFormat`, not under `src/`): a raster format
(PNG), the scale-invariant vector format (SVG), or the lossy
re-encoded format (WEBP). -/
inductive ImageFormat where
  | png
  | svg
  | webp
deriving DecidableEq, Repr

/-- Modelled from the spec: `ImageFormat::is_svg` — SVG is the single
scale-invariant vector format. -/
def ImageFormat.is_svg : ImageFormat → Bool
  | .svg => true
  | _ => false

/-- Modelled from the spec: `ImageFormat::extension` — the output file
extension of each format. -/
def ImageFormat.extension : ImageFormat → String
  | .png => "png"
  | .svg => "svg"
  | .webp => "webp"

/-- The error type threaded through the per-task pipeline.
`ImageMissingInFrame`, `CannotCreateDrawableDir` and
`CannotMoveToDrawableDir` are constructed in `images.rs` itself; the
remaining variants are modelled from the spec (TransientFailure(stage,
cause)): the collaborators' failures carry a stage and a cause. -/
inductive AppError where
  | ImageMissingInFrame (name frame : String) (suggestions : Option (List String))
  | FetchImageUrlError (cause : String)
  | DownloadImageError (cause : String)
  | WebpConversionError (cause : String)
  | CannotCreateDrawableDir (cause : String)
  | CannotMoveToDrawableDir (name cause : String)
deriving DecidableEq, Repr

/-- Modelled from the spec: the human-readable `Display` rendering of an
error (`AppError`'s `Display` impl is not under `src/`). -/
def AppError.describe : AppError → String
  | .ImageMissingInFrame n f _ =>
      "An image `" ++ n ++ "` is missing in frame `" ++ f ++ "`"
  | .FetchImageUrlError c => "Cannot fetch image download url: " ++ c
  | .DownloadImageError c => "Cannot download image: " ++ c
  | .WebpConversionError c => "Cannot convert image to webp: " ++ c
  | .CannotCreateDrawableDir c => "Cannot create drawable dir: " ++ c
  | .CannotMoveToDrawableDir n c =>
      "Cannot move image `" ++ n ++ "` to drawable dir: " ++ c

/-- The lifecycle events rendered in the terminal
(`feature_images::view::View`, variants as used by `images.rs`). -/
inductive View where
  | Error (description : String)
  | ErrorWithSuggestions (description : String) (suggestions : List String)
  | Done (message : Option String)
  | FetchingImage (name scale : String)
  | DownloadingImage (name scale : String)
  | ConvertingToWebp (name scale : String)
  | ConvertedToWebp (name scale : String)
  | ImageExported (name scale : String)
deriving DecidableEq, Repr

/-- One observable effect of the pipeline: a renderer call
(`renderer.render` / `renderer.new_line`), an API-collaborator call, or
a file-system operation on the output resource tree. -/
inductive Action where
  | render (v : View)
  | newLine
  | callGetUrl (fileId nodeId : String) (scale : Rat) (format : ImageFormat)
  | callGetImage (url resName scaleName : String) (format : ImageFormat)
  | callWebp (file : String) (quality : Rat)
  | fsCreateDir (path : String)
  | fsMoveFile (src dst : String)
deriving DecidableEq, Repr

/-- The validated settings object, restricted to the fields `images.rs`
reads (`AppConfig` lives outside `src/`; fields modelled from the spec
and from the accesses in `images.rs`). Scales are kept as an ordered
association list, the deterministic in-run iteration order of the
configured scale map. -/
structure AppConfig where
  figma_file_id : String
  figma_frame_name : String
  images_format : ImageFormat
  images_scales : List (String × Rat)
  webp_quality : Rat
  main_res_images : String
deriving DecidableEq, Repr

/-- The result of the initial fetch step: the validated config and the
NameIndex (name → node id) built from the matched frame's children
(`fetcher_entry.image_names_to_ids`). -/
structure FetcherEntry where
  app_config : AppConfig
  image_names_to_ids : List (String × String)
deriving DecidableEq, Repr

/-- The external collaborators of `images.rs`, as pure oracle
functions: the fetch step, the Figma API client, the WEBP encoder, the
file utilities, the name sanitizer and the suggestion generator. -/
structure Env where
  fetch : Except String FetcherEntry
  get_image_download_url : String → String → Rat → ImageFormat → Except String String
  get_image : String → String → String → ImageFormat → Except String String
  image_to_webp : String → Rat → Except String String
  create_dir : String → Except String Unit
  move_file : String → String → Except String Unit
  to_res_name : String → String
  generate_name_suggections : String → List String → Option (List String)

/-- Rust struct `ImageInfo` (`images.rs` lines 15–22). -/
structure ImageInfo where
  name : String
  scale_name : String
  scale_value : Rat
  format : ImageFormat
  res_name : String
deriving DecidableEq, Repr

/-- Function `image_drawable_dir` (`images.rs` lines 203–209): SVG always maps to
the single canonical `drawable` directory; every other format maps to
`drawable-` suffixed with the scale name. -/
def image_drawable_dir (res_dir : String) (image_info : ImageInfo) : String :=
  if image_info.format.is_svg then
    res_dir ++ "/drawable"
  else
    res_dir ++ "/drawable-" ++ image_info.scale_name

/-- Function `convert_to_webp_if_necessary` (`images.rs` lines 149–170): returns
the (possibly re-encoded) temporary file name together with the trace
of renderer and encoder calls it performs. -/
def convert_to_webp_if_necessary (env : Env) (image_info : ImageInfo)
    (image_file_name : String) (quality : Rat) :
    Except AppError String × List Action :=
  match image_info.format with
  | .webp =>
      match env.image_to_webp image_file_name quality with
      | .error c =>
          (.error (.WebpConversionError c),
           [.render (.ConvertingToWebp image_info.name image_info.scale_name),
            .callWebp image_file_name quality])
      | .ok new_image_path =>
          (.ok new_image_path,
           [.render (.ConvertingToWebp image_info.name image_info.scale_name),
            .callWebp image_file_name quality,
            .render (.ConvertedToWebp image_info.name image_info.scale_name)])
  | _ => (.ok image_file_name, [])

/-- Function `export_image` (`images.rs` lines 77–147): the per-task pipeline —
index lookup, download-URL request, byte download, optional re-encode,
directory creation, move into place — returning its result together
with the ordered trace of its observable effects. -/
def export_image (env : Env) (app_config : AppConfig) (image_info : ImageInfo)
    (names_to_ids : List (String × String)) :
    Except AppError Unit × List Action :=
  match List.lookup image_info.name names_to_ids with
  | none =>
      (.error (.ImageMissingInFrame image_info.name app_config.figma_frame_name
        (env.generate_name_suggections image_info.name
          (names_to_ids.map Prod.fst))), [])
  | some node_id =>
      let t₁ : List Action :=
        [.render (.FetchingImage image_info.name image_info.scale_name),
         .callGetUrl app_config.figma_file_id node_id image_info.scale_value
           image_info.format]
      match env.get_image_download_url app_config.figma_file_id node_id
          image_info.scale_value image_info.format with
      | .error c => (.error (.FetchImageUrlError c), t₁)
      | .ok image_download_url =>
          let t₂ : List Action := t₁ ++
            [.render (.DownloadingImage image_info.name image_info.scale_name),
             .callGetImage image_download_url image_info.res_name
               image_info.scale_name app_config.images_format]
          match env.get_image image_download_url image_info.res_name
              image_info.scale_name app_config.images_format with
          | .error c => (.error (.DownloadImageError c), t₂)
          | .ok image_temporary_file_name =>
              match convert_to_webp_if_necessary env image_info
                  image_temporary_file_name app_config.webp_quality with
              | (.error e, t₃) => (.error e, t₂ ++ t₃)
              | (.ok converted_file_name, t₃) =>
                  let full_final_image_dir :=
                    image_drawable_dir app_config.main_res_images image_info
                  let t₄ : List Action := t₂ ++ t₃ ++ [.fsCreateDir full_final_image_dir]
                  match env.create_dir full_final_image_dir with
                  | .error c => (.error (.CannotCreateDrawableDir c), t₄)
                  | .ok _ =>
                      let full_final_image_path :=
                        full_final_image_dir ++ "/" ++ image_info.res_name ++ "." ++
                          image_info.format.extension
                      let t₅ : List Action := t₄ ++
                        [.fsMoveFile converted_file_name full_final_image_path]
                      match env.move_file converted_file_name full_final_image_path with
                      | .error c =>
                          (.error (.CannotMoveToDrawableDir image_info.name c), t₅)
                      | .ok _ =>
                          (.ok (), t₅ ++
                            [.render (.ImageExported image_info.name
                              image_info.scale_name)])

/-- Function `check_image_missing_error` (`images.rs` lines 178–198): renders the
missing-asset error (with or without suggestions) and reports whether
the export of the remaining scales of this image must stop. -/
def check_image_missing_error (export_result : Except AppError Unit) :
    Bool × List Action :=
  match export_result with
  | .error (.ImageMissingInFrame name frame (some suggestions)) =>
      (true,
       [.render (.ErrorWithSuggestions
          ("An image `" ++ name ++ "` is missing in frame `" ++ frame ++
           "`, but there are images with similar names:") suggestions),
        .newLine])
  | .error (.ImageMissingInFrame name frame none) =>
      (true,
       [.render (.Error
          ("An image `" ++ name ++ "` is missing in frame `" ++ frame ++ "`")),
        .newLine])
  | _ => (false, [])

/-- Construction of the `ImageInfo` record inside the task loop
(`images.rs` lines 49–55). -/
def mk_image_info (env : Env) (app_config : AppConfig)
    (name scale_name : String) (scale_value : Rat) : ImageInfo :=
  { name := name
    scale_name := scale_name
    scale_value := scale_value
    format := app_config.images_format
    res_name := env.to_res_name name }

/-- The scale list used by the run (`images.rs` lines 37–44): a single
synthetic scale (empty label, factor 1) when the format is SVG,
otherwise the configured scale map. -/
def image_scales (app_config : AppConfig) : List (String × Rat) :=
  if app_config.images_format.is_svg then [("", 1)]
  else app_config.images_scales

/-- The ordered sequence of per-asset, per-scale export tasks the run
iterates over (the nested loop of `images.rs` lines 46–57). -/
def planned_tasks (env : Env) (app_config : AppConfig)
    (image_names : List String) : List ImageInfo :=
  (image_names.map (fun n =>
    (image_scales app_config).map (fun p => mk_image_info env app_config n p.1 p.2))).flatten

/-- The error rendering done by the loop body of `export_images`
(`images.rs` lines 59–63): a missing-asset error is left to
`check_image_missing_error`, every other error is rendered through its
human-readable description, a success renders nothing. -/
def render_error_trace : Except AppError Unit → List Action
  | .error (.ImageMissingInFrame _ _ _) => []
  | .error e => [.render (.Error e.describe)]
  | .ok _ => []

/-- The inner per-asset loop of `export_images` (`images.rs` lines
47–71): runs the scale-tasks of one asset in order, rendering each
non-missing error, and stops at the first missing-asset outcome.
Returns the trace together with the (task, result) outcome list. -/
def run_scales (env : Env) (app_config : AppConfig)
    (names_to_ids : List (String × String)) (name : String) :
    List (String × Rat) → List Action × List (ImageInfo × Except AppError Unit)
  | [] => ([], [])
  | (scale_name, scale_value) :: rest =>
      let image_info := mk_image_info env app_config name scale_name scale_value
      let step := export_image env app_config image_info names_to_ids
      let check := check_image_missing_error step.1
      if check.1 then
        (step.2 ++ render_error_trace step.1 ++ check.2, [(image_info, step.1)])
      else
        let next := run_scales env app_config names_to_ids name rest
        (step.2 ++ render_error_trace step.1 ++ check.2 ++ [Action.newLine] ++
           next.1,
         (image_info, step.1) :: next.2)

/-- Function `export_images` (`images.rs` lines 24–75): the whole run — initial
fetch, then the per-asset loops, then the final `Done` event — returning
the full trace together with the per-task outcome list. -/
def export_images_run (env : Env) (image_names : List String) :
    List Action × List (ImageInfo × Except AppError Unit) :=
  match env.fetch with
  | .error e => ([.render (.Error e)], [])
  | .ok fetcher_entry =>
      let app_config := fetcher_entry.app_config
      let names_to_ids := fetcher_entry.image_names_to_ids
      let scales := image_scales app_config
      let per := image_names.map (fun n => run_scales env app_config names_to_ids n scales)
      ((per.map Prod.fst).flatten ++ [.render (.Done none)],
       (per.map Prod.snd).flatten)

/-- The full event/effect trace of a run. -/
def export_images (env : Env) (image_names : List String) : List Action :=
  (export_images_run env image_names).1

/-- The per-task outcomes of a run, in execution order. -/
def export_outcomes (env : Env) (image_names : List String) :
    List (ImageInfo × Except AppError Unit) :=
  (export_images_run env image_names).2

/-- The event rendered for a failed task by the loop body of
`export_images` (`images.rs` lines 59–68): a missing-asset error is
rendered by `check_image_missing_error` (with suggestions when
available), every other error through its human-readable description. -/
def error_view : AppError → View
  | .ImageMissingInFrame n f (some s) =>
      .ErrorWithSuggestions
        ("An image `" ++ n ++ "` is missing in frame `" ++ f ++
         "`, but there are images with similar names:") s
  | .ImageMissingInFrame n f none =>
      .Error ("An image `" ++ n ++ "` is missing in frame `" ++ f ++ "`")
  | e => .Error e.describe

/-- Errors that arise before the directory-creation stage of the
pipeline: index lookup miss, download-URL request failure, byte
download failure, re-encode failure. -/
def AppError.before_mkdir : AppError → Bool
  | .ImageMissingInFrame _ _ _ => true
  | .FetchImageUrlError _ => true
  | .DownloadImageError _ => true
  | .WebpConversionError _ => true
  | .CannotCreateDrawableDir _ => false
  | .CannotMoveToDrawableDir _ _ => false

/-- A sample validated config used to instantiate the theorems. -/
def sample_config : AppConfig :=
  { figma_file_id := "file123"
    figma_frame_name := "Icons"
    images_format := .png
    images_scales := [("mdpi", 1), ("xhdpi", 2)]
    webp_quality := 90
    main_res_images := "app/src/main/res" }

/-- The sample config with the scale-invariant SVG target format. -/
def sample_svg_config : AppConfig :=
  { sample_config with images_format := .svg }

/-- A sample fetch result: the sample config and a two-entry NameIndex. -/
def sample_entry : FetcherEntry :=
  { app_config := sample_config
    image_names_to_ids := [("ic_close", "1:1"), ("ic_menu", "1:2")] }

/-- A sample environment in which every collaborator succeeds. -/
def sample_env : Env :=
  { fetch := .ok sample_entry
    get_image_download_url := fun _ _ _ _ => .ok "https://dl/img"
    get_image := fun _ _ _ _ => .ok "tmp/img"
    image_to_webp := fun f _ => .ok (f ++ ".webp")
    create_dir := fun _ => .ok ()
    move_file := fun _ _ => .ok ()
    to_res_name := fun n => n
    generate_name_suggections := fun _ _ => none }

/-- The sample environment with a failing download-URL request. -/
def sample_env_url_fail : Env :=
  { sample_env with get_image_download_url := fun _ _ _ _ => .error "http 500" }

/-- The sample environment with a failing initial fetch step. -/
def sample_env_fetch_fail : Env :=
  { sample_env with fetch := .error "network down" }

/-- Actions that belong to the per-task pipeline of `export_image`
(as opposed to the loop-level error reporting and the final `Done`). -/
def Action.task_like : Action → Bool
  | .render (.FetchingImage _ _) => true
  | .render (.DownloadingImage _ _) => true
  | .render (.ConvertingToWebp _ _) => true
  | .render (.ConvertedToWebp _ _) => true
  | .render (.ImageExported _ _) => true
  | .callGetUrl _ _ _ _ => true
  | .callGetImage _ _ _ _ => true
  | .callWebp _ _ => true
  | .fsCreateDir _ => true
  | .fsMoveFile _ _ => true
  | _ => false

/-- The pipeline stage an action belongs to, in the order the stages
appear in `export_image`: fetching event, download-URL request,
downloading event, byte download, re-encoding events around the encoder
call, directory creation, move, exported event. -/
def Action.stage : Action → Nat
  | .render (.FetchingImage _ _) => 0
  | .callGetUrl _ _ _ _ => 1
  | .render (.DownloadingImage _ _) => 2
  | .callGetImage _ _ _ _ => 3
  | .render (.ConvertingToWebp _ _) => 4
  | .callWebp _ _ => 5
  | .render (.ConvertedToWebp _ _) => 6
  | .fsCreateDir _ => 7
  | .fsMoveFile _ _ => 8
  | .render (.ImageExported _ _) => 9
  | _ => 0

section Helpers

variable (env : Env) (app_config : AppConfig) (image_info : ImageInfo)
variable (names_to_ids : List (String × String))

/-- The first two trace entries of a task whose index lookup hits. -/
def fetch_trace (node_id : String) : List Action :=
  [.render (.FetchingImage image_info.name image_info.scale_name),
   .callGetUrl app_config.figma_file_id node_id image_info.scale_value
     image_info.format]

/-- The trace entries of the byte-download stage. -/
def download_trace (image_download_url : String) : List Action :=
  [.render (.DownloadingImage image_info.name image_info.scale_name),
   .callGetImage image_download_url image_info.res_name image_info.scale_name
     app_config.images_format]

lemma export_image_eq_missing
    (hl : List.lookup image_info.name names_to_ids = none) :
    export_image env app_config image_info names_to_ids =
      (.error (.ImageMissingInFrame image_info.name app_config.figma_frame_name
        (env.generate_name_suggections image_info.name
          (names_to_ids.map Prod.fst))), []) := by
  simp [export_image, hl]

lemma export_image_eq_url_error (node_id c)
    (hl : List.lookup image_info.name names_to_ids = some node_id)
    (hu : env.get_image_download_url app_config.figma_file_id node_id
      image_info.scale_value image_info.format = .error c) :
    export_image env app_config image_info names_to_ids =
      (.error (.FetchImageUrlError c),
       fetch_trace app_config image_info node_id) := by
  simp [export_image, hl, hu, fetch_trace]

lemma export_image_eq_download_error (node_id url c)
    (hl : List.lookup image_info.name names_to_ids = some node_id)
    (hu : env.get_image_download_url app_config.figma_file_id node_id
      image_info.scale_value image_info.format = .ok url)
    (hg : env.get_image url image_info.res_name image_info.scale_name
      app_config.images_format = .error c) :
    export_image env app_config image_info names_to_ids =
      (.error (.DownloadImageError c),
       fetch_trace app_config image_info node_id ++
       download_trace app_config image_info url) := by
  simp [export_image, hl, hu, hg, fetch_trace, download_trace]

lemma export_image_eq_convert_error (node_id url tmp e t₃)
    (hl : List.lookup image_info.name names_to_ids = some node_id)
    (hu : env.get_image_download_url app_config.figma_file_id node_id
      image_info.scale_value image_info.format = .ok url)
    (hg : env.get_image url image_info.res_name image_info.scale_name
      app_config.images_format = .ok tmp)
    (hc : convert_to_webp_if_necessary env image_info tmp
      app_config.webp_quality = (.error e, t₃)) :
    export_image env app_config image_info names_to_ids =
      (.error e,
       fetch_trace app_config image_info node_id ++
       download_trace app_config image_info url ++ t₃) := by
  simp [export_image, hl, hu, hg, hc, fetch_trace, download_trace]

lemma export_image_eq_mkdir_error (node_id url tmp tmp₂ t₃ c)
    (hl : List.lookup image_info.name names_to_ids = some node_id)
    (hu : env.get_image_download_url app_config.figma_file_id node_id
      image_info.scale_value image_info.format = .ok url)
    (hg : env.get_image url image_info.res_name image_info.scale_name
      app_config.images_format = .ok tmp)
    (hc : convert_to_webp_if_necessary env image_info tmp
      app_config.webp_quality = (.ok tmp₂, t₃))
    (hd : env.create_dir (image_drawable_dir app_config.main_res_images
      image_info) = .error c) :
    export_image env app_config image_info names_to_ids =
      (.error (.CannotCreateDrawableDir c),
       fetch_trace app_config image_info node_id ++
       download_trace app_config image_info url ++ t₃ ++
       [.fsCreateDir (image_drawable_dir app_config.main_res_images
          image_info)]) := by
  simp [export_image, hl, hu, hg, hc, hd, fetch_trace, download_trace]

lemma export_image_eq_move_error (node_id url tmp tmp₂ t₃ c)
    (hl : List.lookup image_info.name names_to_ids = some node_id)
    (hu : env.get_image_download_url app_config.figma_file_id node_id
      image_info.scale_value image_info.format = .ok url)
    (hg : env.get_image url image_info.res_name image_info.scale_name
      app_config.images_format = .ok tmp)
    (hc : convert_to_webp_if_necessary env image_info tmp
      app_config.webp_quality = (.ok tmp₂, t₃))
    (hd : env.create_dir (image_drawable_dir app_config.main_res_images
      image_info) = .ok ())
    (hm : env.move_file tmp₂ (image_drawable_dir app_config.main_res_images
        image_info ++ "/" ++ image_info.res_name ++ "." ++
        image_info.format.extension) = .error c) :
    export_image env app_config image_info names_to_ids =
      (.error (.CannotMoveToDrawableDir image_info.name c),
       fetch_trace app_config image_info node_id ++
       download_trace app_config image_info url ++ t₃ ++
       [.fsCreateDir (image_drawable_dir app_config.main_res_images
          image_info),
        .fsMoveFile tmp₂ (image_drawable_dir app_config.main_res_images
          image_info ++ "/" ++ image_info.res_name ++ "." ++
          image_info.format.extension)]) := by
  simp [export_image, hl, hu, hg, hc, hd, hm, fetch_trace, download_trace]

lemma export_image_eq_ok (node_id url tmp tmp₂ t₃)
    (hl : List.lookup image_info.name names_to_ids = some node_id)
    (hu : env.get_image_download_url app_config.figma_file_id node_id
      image_info.scale_value image_info.format = .ok url)
    (hg : env.get_image url image_info.res_name image_info.scale_name
      app_config.images_format = .ok tmp)
    (hc : convert_to_webp_if_necessary env image_info tmp
      app_config.webp_quality = (.ok tmp₂, t₃))
    (hd : env.create_dir (image_drawable_dir app_config.main_res_images
      image_info) = .ok ())
    (hm : env.move_file tmp₂ (image_drawable_dir app_config.main_res_images
        image_info ++ "/" ++ image_info.res_name ++ "." ++
        image_info.format.extension) = .ok ()) :
    export_image env app_config image_info names_to_ids =
      (.ok (),
       fetch_trace app_config image_info node_id ++
       download_trace app_config image_info url ++ t₃ ++
       [.fsCreateDir (image_drawable_dir app_config.main_res_images
          image_info),
        .fsMoveFile tmp₂ (image_drawable_dir app_config.main_res_images
          image_info ++ "/" ++ image_info.res_name ++ "." ++
          image_info.format.extension),
        .render (.ImageExported image_info.name image_info.scale_name)]) := by
  simp [export_image, hl, hu, hg, hc, hd, hm, fetch_trace, download_trace]

/-- The three possible traces of the re-encoding step: nothing (format
needs no re-encoding), the converting event and the encoder call (the
encoder failed), or those followed by the converted event. -/
lemma convert_trace_cases (file quality) :
    (convert_to_webp_if_necessary env image_info file quality).2 = [] ∨
    (convert_to_webp_if_necessary env image_info file quality).2 =
      [.render (.ConvertingToWebp image_info.name image_info.scale_name),
       .callWebp file quality] ∨
    (convert_to_webp_if_necessary env image_info file quality).2 =
      [.render (.ConvertingToWebp image_info.name image_info.scale_name),
       .callWebp file quality,
       .render (.ConvertedToWebp image_info.name image_info.scale_name)] := by
  unfold convert_to_webp_if_necessary
  cases hf : image_info.format <;> simp [hf]
  cases h : env.image_to_webp file quality <;> simp [h]

/-- The re-encoding step fails only with a `WebpConversionError`. -/
lemma convert_error_shape (file quality e t₃)
    (hc : convert_to_webp_if_necessary env image_info file quality =
      (.error e, t₃)) :
    ∃ c, e = .WebpConversionError c := by
  unfold convert_to_webp_if_necessary at hc
  cases hf : image_info.format <;> rw [hf] at hc <;>
    [simp at hc; simp at hc; skip]
  cases h : env.image_to_webp file quality <;> rw [h] at hc <;>
    simp at hc
  exact ⟨_, hc.1.symm⟩

set_option maxHeartbeats 1000000 in
/-- Combined per-task trace properties of `export_image`: every trace
entry is a task-stage action, the trace is strictly ordered by pipeline
stage, any move targets the canonical destination path, and the
exported event appears only in the fully successful run, after a move. -/
lemma export_image_trace_props :
    (∀ a ∈ (export_image env app_config image_info names_to_ids).2,
       a.task_like = true) ∧
    List.Pairwise (fun a b => a.stage < b.stage)
      (export_image env app_config image_info names_to_ids).2 ∧
    (∀ s d, Action.fsMoveFile s d ∈
        (export_image env app_config image_info names_to_ids).2 →
      d = image_drawable_dir app_config.main_res_images image_info ++ "/" ++
          image_info.res_name ++ "." ++ image_info.format.extension) ∧
    (Action.render (View.ImageExported image_info.name image_info.scale_name) ∈
        (export_image env app_config image_info names_to_ids).2 →
      (export_image env app_config image_info names_to_ids).1 = .ok () ∧
      ∃ s d, Action.fsMoveFile s d ∈
        (export_image env app_config image_info names_to_ids).2) := by
  cases hl : List.lookup image_info.name names_to_ids with
  | none =>
      rw [export_image_eq_missing env app_config image_info names_to_ids hl]
      simp
  | some node_id =>
  cases hu : env.get_image_download_url app_config.figma_file_id node_id
      image_info.scale_value image_info.format with
  | error c =>
      rw [export_image_eq_url_error env app_config image_info names_to_ids
        node_id c hl hu]
      simp [fetch_trace, Action.task_like, Action.stage]
  | ok url =>
  cases hg : env.get_image url image_info.res_name image_info.scale_name
      app_config.images_format with
  | error c =>
      rw [export_image_eq_download_error env app_config image_info names_to_ids
        node_id url c hl hu hg]
      simp [fetch_trace, download_trace, Action.task_like, Action.stage]
  | ok tmp =>
  have hct := convert_trace_cases env image_info tmp app_config.webp_quality
  cases hcv : convert_to_webp_if_necessary env image_info tmp
      app_config.webp_quality with
  | mk cr t₃ =>
  rw [hcv] at hct
  cases cr with
  | error e =>
      rw [export_image_eq_convert_error env app_config image_info names_to_ids
        node_id url tmp e t₃ hl hu hg hcv]
      rcases hct with h | h | h <;> subst h <;>
        simp [fetch_trace, download_trace, Action.task_like, Action.stage]
  | ok tmp₂ =>
  cases hd : env.create_dir (image_drawable_dir app_config.main_res_images
      image_info) with
  | error c =>
      rw [export_image_eq_mkdir_error env app_config image_info names_to_ids
        node_id url tmp tmp₂ t₃ c hl hu hg hcv hd]
      rcases hct with h | h | h <;> subst h <;>
        simp [fetch_trace, download_trace, Action.task_like, Action.stage]
  | ok u =>
  cases u
  cases hm : env.move_file tmp₂ (image_drawable_dir app_config.main_res_images
      image_info ++ "/" ++ image_info.res_name ++ "." ++
      image_info.format.extension) with
  | error c =>
      rw [export_image_eq_move_error env app_config image_info names_to_ids
        node_id url tmp tmp₂ t₃ c hl hu hg hcv hd hm]
      rcases hct with h | h | h <;> subst h <;>
        simp [fetch_trace, download_trace, Action.task_like, Action.stage]
  | ok v =>
  cases v
  rw [export_image_eq_ok env app_config image_info names_to_ids
    node_id url tmp tmp₂ t₃ hl hu hg hcv hd hm]
  rcases hct with h | h | h <;> subst h <;>
    simp [fetch_trace, download_trace, Action.task_like, Action.stage]

lemma check_stop_iff (r : Except AppError Unit) :
    (check_image_missing_error r).1 = true ↔
      ∃ n f s, r = .error (.ImageMissingInFrame n f s) := by
  cases r with
  | ok u => simp [check_image_missing_error]
  | error e =>
    cases e with
    | ImageMissingInFrame n f s =>
        cases s <;> simp [check_image_missing_error]
    | FetchImageUrlError c => simp [check_image_missing_error]
    | DownloadImageError c => simp [check_image_missing_error]
    | WebpConversionError c => simp [check_image_missing_error]
    | CannotCreateDrawableDir c => simp [check_image_missing_error]
    | CannotMoveToDrawableDir n c => simp [check_image_missing_error]

lemma error_reported (e : AppError) :
    Action.render (error_view e) ∈
      render_error_trace (.error e) ++ (check_image_missing_error (.error e)).2 := by
  cases e with
  | ImageMissingInFrame n f s =>
      cases s <;>
        simp [render_error_trace, check_image_missing_error, error_view]
  | FetchImageUrlError c =>
      simp [render_error_trace, check_image_missing_error, error_view]
  | DownloadImageError c =>
      simp [render_error_trace, check_image_missing_error, error_view]
  | WebpConversionError c =>
      simp [render_error_trace, check_image_missing_error, error_view]
  | CannotCreateDrawableDir c =>
      simp [render_error_trace, check_image_missing_error, error_view]
  | CannotMoveToDrawableDir n c =>
      simp [render_error_trace, check_image_missing_error, error_view]

lemma render_error_trace_no_done (r : Except AppError Unit) (m : Option String) :
    Action.render (View.Done m) ∉ render_error_trace r := by
  cases r with
  | ok u => simp [render_error_trace]
  | error e => cases e <;> simp [render_error_trace]

lemma check_trace_no_done (r : Except AppError Unit) (m : Option String) :
    Action.render (View.Done m) ∉ (check_image_missing_error r).2 := by
  cases r with
  | ok u => simp [check_image_missing_error]
  | error e =>
    cases e with
    | ImageMissingInFrame n f s => cases s <;> simp [check_image_missing_error]
    | FetchImageUrlError c => simp [check_image_missing_error]
    | DownloadImageError c => simp [check_image_missing_error]
    | WebpConversionError c => simp [check_image_missing_error]
    | CannotCreateDrawableDir c => simp [check_image_missing_error]
    | CannotMoveToDrawableDir n c => simp [check_image_missing_error]

lemma run_scales_name (name : String) :
    ∀ (scales : List (String × Rat)) info r,
      (info, r) ∈ (run_scales env app_config names_to_ids name scales).2 →
      info.name = name := by
  intro scales
  induction scales with
  | nil => simp [run_scales]
  | cons p rest ih =>
    rcases p with ⟨sn, sv⟩
    intro info r h
    by_cases hc : (check_image_missing_error (export_image env app_config
        (mk_image_info env app_config name sn sv) names_to_ids).1).1 = true
    · simp [run_scales, hc] at h
      rcases h with ⟨h1, -⟩
      subst h1
      rfl
    · simp [run_scales, hc] at h
      rcases h with ⟨h1, -⟩ | h
      · subst h1
        rfl
      · exact ih info r h

lemma run_scales_report (name : String) :
    ∀ (scales : List (String × Rat)) info r e,
      (info, r) ∈ (run_scales env app_config names_to_ids name scales).2 →
      r = .error e →
      Action.render (error_view e) ∈
        (run_scales env app_config names_to_ids name scales).1 := by
  intro scales
  induction scales with
  | nil => simp [run_scales]
  | cons p rest ih =>
    rcases p with ⟨sn, sv⟩
    intro info r e h hr
    by_cases hc : (check_image_missing_error (export_image env app_config
        (mk_image_info env app_config name sn sv) names_to_ids).1).1 = true
    · simp only [run_scales, hc, if_true] at h ⊢
      simp at h
      rcases h with ⟨-, h2⟩
      have := error_reported e
      rw [hr] at h2
      rw [← h2]
      simp only [List.append_assoc, List.mem_append]
      simp only [List.mem_append] at this
      tauto
    · simp only [run_scales, hc, if_false, Bool.false_eq_true] at h ⊢
      simp at h
      rcases h with ⟨-, h2⟩ | h
      · have := error_reported e
        rw [hr] at h2
        rw [← h2]
        simp only [List.append_assoc, List.mem_append]
        simp only [List.mem_append] at this
        tauto
      · have := ih info r e h hr
        simp only [List.append_assoc, List.mem_append]
        tauto

lemma run_scales_no_done (name : String) :
    ∀ (scales : List (String × Rat)) (m : Option String),
      Action.render (View.Done m) ∉
        (run_scales env app_config names_to_ids name scales).1 := by
  intro scales
  induction scales with
  | nil => simp [run_scales]
  | cons p rest ih =>
    rcases p with ⟨sn, sv⟩
    intro m
    have hstep := (export_image_trace_props env app_config
      (mk_image_info env app_config name sn sv) names_to_ids).1
    by_cases hc : (check_image_missing_error (export_image env app_config
        (mk_image_info env app_config name sn sv) names_to_ids).1).1 = true <;>
      simp only [run_scales, hc, if_true, if_false, Bool.false_eq_true] <;>
      simp only [List.append_assoc, List.mem_append, not_or] <;>
      refine ⟨fun h => ?_, ?_⟩
    · have := hstep _ h
      simp [Action.task_like] at this
    · exact ⟨render_error_trace_no_done _ m, check_trace_no_done _ m⟩
    · have := hstep _ h
      simp [Action.task_like] at this
    · refine ⟨render_error_trace_no_done _ m, check_trace_no_done _ m, ?_, ?_⟩
      · simp
      · exact ih m

lemma run_scales_lookup_none_outcomes (name sn : String) (sv : Rat)
    (rest : List (String × Rat))
    (hl : List.lookup name names_to_ids = none) :
    (run_scales env app_config names_to_ids name ((sn, sv) :: rest)).2 =
      [(mk_image_info env app_config name sn sv,
        .error (.ImageMissingInFrame name app_config.figma_frame_name
          (env.generate_name_suggections name (names_to_ids.map Prod.fst))))] := by
  have he := export_image_eq_missing env app_config
    (mk_image_info env app_config name sn sv) names_to_ids hl
  simp only [mk_image_info] at he
  cases hs : env.generate_name_suggections name (names_to_ids.map Prod.fst) <;>
    rw [hs] at he <;>
    simp [run_scales, he, check_image_missing_error, mk_image_info, hs]

lemma export_outcomes_append (l₁ l₂ : List String) :
    export_outcomes env (l₁ ++ l₂) =
      export_outcomes env l₁ ++ export_outcomes env l₂ := by
  cases hf : env.fetch with
  | error e => simp [export_outcomes, export_images_run, hf]
  | ok entry => simp [export_outcomes, export_images_run, hf]

lemma run_scales_lookup_none_all (name : String)
    (hl : List.lookup name names_to_ids = none) :
    ∀ (scales : List (String × Rat)) info r,
      (info, r) ∈ (run_scales env app_config names_to_ids name scales).2 →
      r = .error (.ImageMissingInFrame name app_config.figma_frame_name
        (env.generate_name_suggections name (names_to_ids.map Prod.fst))) := by
  intro scales
  cases scales with
  | nil => simp [run_scales]
  | cons p rest =>
    rcases p with ⟨sn, sv⟩
    intro info r h
    rw [run_scales_lookup_none_outcomes env app_config names_to_ids
      name sn sv rest hl] at h
    simp at h
    exact h.2

lemma export_image_no_fs_early (e : AppError)
    (hr : (export_image env app_config image_info names_to_ids).1 = .error e)
    (he : e.before_mkdir = true) :
    (∀ p, Action.fsCreateDir p ∉
       (export_image env app_config image_info names_to_ids).2) ∧
    (∀ s d, Action.fsMoveFile s d ∉
       (export_image env app_config image_info names_to_ids).2) := by
  cases hl : List.lookup image_info.name names_to_ids with
  | none =>
      rw [export_image_eq_missing env app_config image_info names_to_ids hl]
      simp
  | some node_id =>
  cases hu : env.get_image_download_url app_config.figma_file_id node_id
      image_info.scale_value image_info.format with
  | error c =>
      rw [export_image_eq_url_error env app_config image_info names_to_ids
        node_id c hl hu]
      simp [fetch_trace]
  | ok url =>
  cases hg : env.get_image url image_info.res_name image_info.scale_name
      app_config.images_format with
  | error c =>
      rw [export_image_eq_download_error env app_config image_info names_to_ids
        node_id url c hl hu hg]
      simp [fetch_trace, download_trace]
  | ok tmp =>
  have hct := convert_trace_cases env image_info tmp app_config.webp_quality
  cases hcv : convert_to_webp_if_necessary env image_info tmp
      app_config.webp_quality with
  | mk cr t₃ =>
  rw [hcv] at hct
  cases cr with
  | error e' =>
      rw [export_image_eq_convert_error env app_config image_info names_to_ids
        node_id url tmp e' t₃ hl hu hg hcv]
      rcases hct with h | h | h <;> subst h <;>
        simp [fetch_trace, download_trace]
  | ok tmp₂ =>
  cases hd : env.create_dir (image_drawable_dir app_config.main_res_images
      image_info) with
  | error c =>
      rw [export_image_eq_mkdir_error env app_config image_info names_to_ids
        node_id url tmp tmp₂ t₃ c hl hu hg hcv hd] at hr
      simp at hr
      subst hr
      simp [AppError.before_mkdir] at he
  | ok u =>
  cases u
  cases hm : env.move_file tmp₂ (image_drawable_dir app_config.main_res_images
      image_info ++ "/" ++ image_info.res_name ++ "." ++
      image_info.format.extension) with
  | error c =>
      rw [export_image_eq_move_error env app_config image_info names_to_ids
        node_id url tmp tmp₂ t₃ c hl hu hg hcv hd hm] at hr
      simp at hr
      subst hr
      simp [AppError.before_mkdir] at he
  | ok v =>
  cases v
  rw [export_image_eq_ok env app_config image_info names_to_ids
    node_id url tmp tmp₂ t₃ hl hu hg hcv hd hm] at hr
  simp at hr

lemma flatten_map_singleton {α β : Type} (f : α → β) :
    ∀ l : List α, (l.map (fun a => [f a])).flatten = l.map f
  | [] => rfl
  | a :: l => by
      simp only [List.map_cons, List.flatten_cons, List.cons_append,
        List.nil_append]
      rw [flatten_map_singleton f l]

lemma flatten_map_length {α β : Type} (f : α → List β) (k : ℕ)
    (h : ∀ a, (f a).length = k) :
    ∀ l : List α, ((l.map f).flatten).length = l.length * k
  | [] => by simp
  | a :: l => by
      simp only [List.map_cons, List.flatten_cons, List.length_append,
        List.length_cons, h a, flatten_map_length f k h l]
      ring

end Helpers

/-- C3: when the target format is the scale-invariant vector format
(SVG), planning enumerates exactly one synthetic scale per asset —
label the empty string and factor 1 — regardless of the configured
scale map, so exactly one task per requested asset name is planned. -/
theorem C3_svg_single_synthetic_scale (env : Env) (app_config : AppConfig)
    (image_names : List String)
    (h : app_config.images_format.is_svg = true) :
    planned_tasks env app_config image_names =
      image_names.map (fun n => mk_image_info env app_config n "" 1) ∧
    (planned_tasks env app_config image_names).length = image_names.length ∧
    ∀ info ∈ planned_tasks env app_config image_names,
      info.scale_name = "" ∧ info.scale_value = 1 := by
  have h1 : planned_tasks env app_config image_names =
      image_names.map (fun n => mk_image_info env app_config n "" 1) := by
    unfold planned_tasks image_scales
    rw [h]
    simp only [if_true, List.map_cons, List.map_nil]
    exact flatten_map_singleton _ image_names
  refine ⟨h1, ?_, ?_⟩
  · rw [h1]
    simp
  · intro info hmem
    rw [h1] at hmem
    rw [List.mem_map] at hmem
    obtain ⟨n, -, rfl⟩ := hmem
    exact ⟨rfl, rfl⟩

/-- C3 witness: with the sample SVG config, two asset names yield
exactly two tasks, each with the empty scale label and factor 1. -/
theorem C3_witness :
    planned_tasks sample_env sample_svg_config ["a", "b"] =
      ["a", "b"].map (fun n => mk_image_info sample_env sample_svg_config n "" 1) ∧
    (planned_tasks sample_env sample_svg_config ["a", "b"]).length = 2 ∧
    ∀ info ∈ planned_tasks sample_env sample_svg_config ["a", "b"],
      info.scale_name = "" ∧ info.scale_value = 1 :=
  C3_svg_single_synthetic_scale sample_env sample_svg_config ["a", "b"] rfl

/-- C4: when the target format is not scale-invariant, planning yields
exactly `|A| × |S|` tasks, in caller-supplied asset order, and the scale
label order within each asset's block equals the configured scale order,
the same for every asset. -/
theorem C4_raster_plans_all_scales (env : Env) (app_config : AppConfig)
    (image_names : List String) (n : String) (rest : List String)
    (h : app_config.images_format.is_svg = false) :
    (planned_tasks env app_config image_names).length =
      image_names.length * app_config.images_scales.length ∧
    planned_tasks env app_config (n :: rest) =
      (app_config.images_scales.map fun p =>
        mk_image_info env app_config n p.1 p.2) ++
        planned_tasks env app_config rest ∧
    ((app_config.images_scales.map fun p =>
        mk_image_info env app_config n p.1 p.2).map ImageInfo.scale_name) =
      app_config.images_scales.map Prod.fst := by
  have hs : image_scales app_config = app_config.images_scales := by
    unfold image_scales
    rw [h]
    simp
  refine ⟨?_, ?_, ?_⟩
  · unfold planned_tasks
    rw [hs]
    exact flatten_map_length _ _ (fun a => by simp) image_names
  · unfold planned_tasks
    rw [hs]
    simp
  · simp [mk_image_info]

/-- C4 witness: the sample config (PNG, two scales) with two asset
names plans four tasks; the per-asset block follows the configured
scale order. -/
theorem C4_witness :
    (planned_tasks sample_env sample_config ["a", "b"]).length =
      2 * sample_config.images_scales.length ∧
    planned_tasks sample_env sample_config ["x", "y"] =
      (sample_config.images_scales.map fun p =>
        mk_image_info sample_env sample_config "x" p.1 p.2) ++
        planned_tasks sample_env sample_config ["y"] ∧
    ((sample_config.images_scales.map fun p =>
        mk_image_info sample_env sample_config "x" p.1 p.2).map
          ImageInfo.scale_name) =
      sample_config.images_scales.map Prod.fst :=
  C4_raster_plans_all_scales sample_env sample_config ["a", "b"] "x" ["y"] rfl

/-- C5: the destination directory is the single canonical
`{root}/drawable` for the scale-invariant SVG format regardless of scale
label, and `{root}/drawable-{scaleLabel}` for every other format; any
move performed by a task targets
`{destinationDir}/{resourceName}.{extension}`. -/
theorem C5_destination_path (env : Env) (app_config : AppConfig)
    (image_info : ImageInfo) (names_to_ids : List (String × String))
    (res_dir : String) :
    (image_info.format.is_svg = true →
       image_drawable_dir res_dir image_info = res_dir ++ "/drawable") ∧
    (image_info.format.is_svg = false →
       image_drawable_dir res_dir image_info =
         res_dir ++ "/drawable-" ++ image_info.scale_name) ∧
    (∀ s d, Action.fsMoveFile s d ∈
        (export_image env app_config image_info names_to_ids).2 →
       d = image_drawable_dir app_config.main_res_images image_info ++ "/" ++
           image_info.res_name ++ "." ++ image_info.format.extension) := by
  refine ⟨fun h => ?_, fun h => ?_,
    (export_image_trace_props env app_config image_info names_to_ids).2.2.1⟩
  · simp [image_drawable_dir, h]
  · simp [image_drawable_dir, h]

/-- C5 witness: in the all-success sample run the PNG task for
`ic_close` at scale `mdpi` moves its file to
`app/src/main/res/drawable-mdpi/ic_close.png`. -/
theorem C5_witness :
    "app/src/main/res/drawable-mdpi/ic_close.png" =
      image_drawable_dir sample_config.main_res_images
        (mk_image_info sample_env sample_config "ic_close" "mdpi" 1) ++ "/" ++
      (mk_image_info sample_env sample_config "ic_close" "mdpi" 1).res_name ++
      "." ++
      (mk_image_info sample_env sample_config "ic_close" "mdpi" 1).format.extension :=
  (C5_destination_path sample_env sample_config
    (mk_image_info sample_env sample_config "ic_close" "mdpi" 1)
    sample_entry.image_names_to_ids sample_config.main_res_images).2.2
    "tmp/img" "app/src/main/res/drawable-mdpi/ic_close.png" (by decide)

/-- C6: a task whose asset name is absent from the NameIndex fails with
exactly a missing-asset error carrying the requested name, the
configured frame name, and the suggestions computed against all current
index keys; nothing else happens at the lookup stage (empty trace). -/
theorem C6_missing_lookup_outcome (env : Env) (app_config : AppConfig)
    (image_info : ImageInfo) (names_to_ids : List (String × String))
    (hl : List.lookup image_info.name names_to_ids = none) :
    export_image env app_config image_info names_to_ids =
      (.error (.ImageMissingInFrame image_info.name app_config.figma_frame_name
        (env.generate_name_suggections image_info.name
          (names_to_ids.map Prod.fst))), []) :=
  export_image_eq_missing env app_config image_info names_to_ids hl

/-- C6 witness: requesting `ic_typo` against the sample index yields
the missing-asset error with the sample frame name and the matcher's
suggestions over the index keys. -/
theorem C6_witness :
    export_image sample_env sample_config
      (mk_image_info sample_env sample_config "ic_typo" "mdpi" 1)
      sample_entry.image_names_to_ids =
      (.error (.ImageMissingInFrame "ic_typo" sample_config.figma_frame_name
        (sample_env.generate_name_suggections "ic_typo"
          (sample_entry.image_names_to_ids.map Prod.fst))), []) :=
  C6_missing_lookup_outcome sample_env sample_config
    (mk_image_info sample_env sample_config "ic_typo" "mdpi" 1)
    sample_entry.image_names_to_ids (by decide)

/-- C7: within one task the trace is strictly ordered by pipeline
stage — the fetching event precedes the download-URL request, the
downloading event precedes the byte fetch, the re-encoding events
surround the encoder call, and the exported event comes last — and the
exported event occurs only in a fully successful task, after a move. -/
theorem C7_event_order (env : Env) (app_config : AppConfig)
    (image_info : ImageInfo) (names_to_ids : List (String × String)) :
    List.Pairwise (fun a b => a.stage < b.stage)
      (export_image env app_config image_info names_to_ids).2 ∧
    (Action.render (View.ImageExported image_info.name image_info.scale_name) ∈
        (export_image env app_config image_info names_to_ids).2 →
      (export_image env app_config image_info names_to_ids).1 = .ok () ∧
      ∃ s d, Action.fsMoveFile s d ∈
        (export_image env app_config image_info names_to_ids).2) :=
  ⟨(export_image_trace_props env app_config image_info names_to_ids).2.1,
   (export_image_trace_props env app_config image_info names_to_ids).2.2.2⟩

/-- C7 witness: in the all-success sample task the exported event is
present, so the task succeeded and a move happened before it. -/
theorem C7_witness :
    (export_image sample_env sample_config
      (mk_image_info sample_env sample_config "ic_close" "mdpi" 1)
      sample_entry.image_names_to_ids).1 = .ok () ∧
    ∃ s d, Action.fsMoveFile s d ∈
      (export_image sample_env sample_config
        (mk_image_info sample_env sample_config "ic_close" "mdpi" 1)
        sample_entry.image_names_to_ids).2 :=
  (C7_event_order sample_env sample_config
    (mk_image_info sample_env sample_config "ic_close" "mdpi" 1)
    sample_entry.image_names_to_ids).2 (by decide)

/-- C10: a task that fails before the directory-creation stage — at
name lookup, download-URL request, byte download, or re-encode — leaves
the output resource tree unchanged: its trace contains no
directory-creation and no file-move operation. -/
theorem C10_no_fs_change_on_early_failure (env : Env)
    (app_config : AppConfig) (image_info : ImageInfo)
    (names_to_ids : List (String × String)) (e : AppError)
    (hr : (export_image env app_config image_info names_to_ids).1 = .error e)
    (he : e.before_mkdir = true) :
    (∀ p, Action.fsCreateDir p ∉
       (export_image env app_config image_info names_to_ids).2) ∧
    (∀ s d, Action.fsMoveFile s d ∉
       (export_image env app_config image_info names_to_ids).2) :=
  export_image_no_fs_early env app_config image_info names_to_ids e hr he

/-- C10 witness: when the download-URL request fails for `ic_close`,
the task performs no directory creation and no move. -/
theorem C10_witness :
    (∀ p, Action.fsCreateDir p ∉
       (export_image sample_env_url_fail sample_config
         (mk_image_info sample_env_url_fail sample_config "ic_close" "mdpi" 1)
         sample_entry.image_names_to_ids).2) ∧
    (∀ s d, Action.fsMoveFile s d ∉
       (export_image sample_env_url_fail sample_config
         (mk_image_info sample_env_url_fail sample_config "ic_close" "mdpi" 1)
         sample_entry.image_names_to_ids).2) :=
  C10_no_fs_change_on_early_failure sample_env_url_fail sample_config
    (mk_image_info sample_env_url_fail sample_config "ic_close" "mdpi" 1)
    sample_entry.image_names_to_ids (.FetchImageUrlError "http 500")
    rfl rfl

/-- C1: if asset `X` is missing from the NameIndex, every recorded
outcome for `X` is the missing-asset error (never a transient failure
or a success), a nonempty scale list for `X` records exactly one
outcome (the remaining scale-tasks are skipped), and processing
continues with the following asset names (outcomes concatenate across
the name list). -/
theorem C1_missing_asset_truncates_scales (env : Env)
    (image_names : List String) (X : String) (entry : FetcherEntry)
    (hf : env.fetch = .ok entry)
    (hX : List.lookup X entry.image_names_to_ids = none) :
    (∀ info r, (info, r) ∈ export_outcomes env image_names →
       info.name = X →
       r = .error (.ImageMissingInFrame X entry.app_config.figma_frame_name
         (env.generate_name_suggections X
           (entry.image_names_to_ids.map Prod.fst)))) ∧
    (∀ sn sv rest,
       (run_scales env entry.app_config entry.image_names_to_ids X
         ((sn, sv) :: rest)).2 =
       [(mk_image_info env entry.app_config X sn sv,
         .error (.ImageMissingInFrame X entry.app_config.figma_frame_name
           (env.generate_name_suggections X
             (entry.image_names_to_ids.map Prod.fst))))]) ∧
    (∀ l₁ l₂, export_outcomes env (l₁ ++ l₂) =
       export_outcomes env l₁ ++ export_outcomes env l₂) := by
  refine ⟨?_, ?_, fun l₁ l₂ => export_outcomes_append env l₁ l₂⟩
  · intro info r hmem hname
    simp only [export_outcomes, export_images_run, hf] at hmem
    rw [List.mem_flatten] at hmem
    obtain ⟨l, hl, hmeml⟩ := hmem
    rw [List.mem_map] at hl
    obtain ⟨pr, hpr, rfl⟩ := hl
    rw [List.mem_map] at hpr
    obtain ⟨n, hn, rfl⟩ := hpr
    have heq := run_scales_name env entry.app_config entry.image_names_to_ids
      n _ info r hmeml
    rw [hname] at heq
    subst heq
    exact run_scales_lookup_none_all env entry.app_config
      entry.image_names_to_ids X hX _ info r hmeml
  · intro sn sv rest
    exact run_scales_lookup_none_outcomes env entry.app_config
      entry.image_names_to_ids X sn sv rest hX

/-- C1 witness: `ic_gone` is absent from the sample index; its
two-scale plan records exactly one outcome, the missing-asset error. -/
theorem C1_witness :
    (run_scales sample_env sample_entry.app_config
      sample_entry.image_names_to_ids "ic_gone" [("mdpi", 1), ("xhdpi", 2)]).2 =
      [(mk_image_info sample_env sample_entry.app_config "ic_gone" "mdpi" 1,
        .error (.ImageMissingInFrame "ic_gone"
          sample_entry.app_config.figma_frame_name
          (sample_env.generate_name_suggections "ic_gone"
            (sample_entry.image_names_to_ids.map Prod.fst))))] :=
  (C1_missing_asset_truncates_scales sample_env ["ic_gone"] "ic_gone"
    sample_entry rfl (by decide)).2.1 "mdpi" 1 [("xhdpi", 2)]

/-- C2: a non-missing failure of one scale-task is recorded and the
remaining sibling scale-tasks of the same asset are processed exactly as
planned (its trace renders the error and continues with the rest); and
a task outcome stops the remaining scales if and only if it is a
missing-asset error. -/
theorem C2_transient_failure_isolated (env : Env) (app_config : AppConfig)
    (names_to_ids : List (String × String)) (Y sn : String) (sv : Rat)
    (rest : List (String × Rat)) (e : AppError)
    (he : (export_image env app_config (mk_image_info env app_config Y sn sv)
      names_to_ids).1 = .error e)
    (hne : ∀ n f s, e ≠ .ImageMissingInFrame n f s) :
    (run_scales env app_config names_to_ids Y ((sn, sv) :: rest)).2 =
      (mk_image_info env app_config Y sn sv, .error e) ::
        (run_scales env app_config names_to_ids Y rest).2 ∧
    (run_scales env app_config names_to_ids Y ((sn, sv) :: rest)).1 =
      (export_image env app_config (mk_image_info env app_config Y sn sv)
        names_to_ids).2 ++
      [.render (.Error e.describe), Action.newLine] ++
      (run_scales env app_config names_to_ids Y rest).1 ∧
    (∀ r, (check_image_missing_error r).1 = true ↔
       ∃ n f s, r = .error (.ImageMissingInFrame n f s)) := by
  have hck : check_image_missing_error (.error e) = (false, []) := by
    cases e with
    | ImageMissingInFrame n f s => exact absurd rfl (hne n f s)
    | FetchImageUrlError c => rfl
    | DownloadImageError c => rfl
    | WebpConversionError c => rfl
    | CannotCreateDrawableDir c => rfl
    | CannotMoveToDrawableDir n c => rfl
  have hrt : render_error_trace (.error e) = [.render (.Error e.describe)] := by
    cases e with
    | ImageMissingInFrame n f s => exact absurd rfl (hne n f s)
    | FetchImageUrlError c => rfl
    | DownloadImageError c => rfl
    | WebpConversionError c => rfl
    | CannotCreateDrawableDir c => rfl
    | CannotMoveToDrawableDir n c => rfl
  refine ⟨?_, ?_, check_stop_iff⟩
  · simp [run_scales, he, hck]
  · simp [run_scales, he, hck, hrt]

/-- C2 witness: with a failing download-URL request, the `mdpi` task of
`ic_close` records its transient failure and the `xhdpi` sibling is
still processed. -/
theorem C2_witness :
    (run_scales sample_env_url_fail sample_config
      sample_entry.image_names_to_ids "ic_close"
      [("mdpi", 1), ("xhdpi", 2)]).2 =
      (mk_image_info sample_env_url_fail sample_config "ic_close" "mdpi" 1,
        .error (.FetchImageUrlError "http 500")) ::
      (run_scales sample_env_url_fail sample_config
        sample_entry.image_names_to_ids "ic_close" [("xhdpi", 2)]).2 :=
  (C2_transient_failure_isolated sample_env_url_fail sample_config
    sample_entry.image_names_to_ids "ic_close" "mdpi" 1 [("xhdpi", 2)]
    (.FetchImageUrlError "http 500") rfl
    (fun n f s h => AppError.noConfusion h)).1

/-- C8: every failure outcome of a run is surfaced to the renderer with
a human-readable description — a failing initial fetch renders its
description, and every per-task error outcome has a corresponding
rendered event (with suggestions when the missing-asset error carries
them) in the run's trace. -/
theorem C8_all_failures_reported (env : Env) (image_names : List String) :
    (∀ e, env.fetch = .error e →
       Action.render (View.Error e) ∈ export_images env image_names) ∧
    (∀ info r e, (info, r) ∈ export_outcomes env image_names →
       r = .error e →
       Action.render (error_view e) ∈ export_images env image_names) := by
  constructor
  · intro e hf
    simp [export_images, export_images_run, hf]
  · intro info r e hmem hr
    cases hf : env.fetch with
    | error e' => simp [export_outcomes, export_images_run, hf] at hmem
    | ok entry =>
        simp only [export_outcomes, export_images_run, hf] at hmem
        rw [List.mem_flatten] at hmem
        obtain ⟨l, hl, hmeml⟩ := hmem
        rw [List.mem_map] at hl
        obtain ⟨pr, hpr, rfl⟩ := hl
        rw [List.mem_map] at hpr
        obtain ⟨n, hn, rfl⟩ := hpr
        have hrep := run_scales_report env entry.app_config
          entry.image_names_to_ids n _ info r e hmeml hr
        simp only [export_images, export_images_run, hf]
        rw [List.mem_append]
        left
        rw [List.mem_flatten]
        refine ⟨_, ?_, hrep⟩
        rw [List.mem_map]
        refine ⟨_, ?_, rfl⟩
        rw [List.mem_map]
        exact ⟨n, hn, rfl⟩

/-- C8 witness: a failing initial fetch renders its description in the
run's trace. -/
theorem C8_witness :
    Action.render (View.Error "network down") ∈
      export_images sample_env_fetch_fail ["ic_close"] :=
  (C8_all_failures_reported sample_env_fetch_fail ["ic_close"]).1
    "network down" rfl

/-- C9: if the initial fetch step fails the run is exactly one rendered
error event with no task outcomes and no done event; if it succeeds the
done event is emitted exactly once, at the very end of the trace. -/
theorem C9_done_emitted_once (env : Env) (image_names : List String) :
    (∀ e, env.fetch = .error e →
       export_images_run env image_names = ([.render (.Error e)], [])) ∧
    (∀ entry, env.fetch = .ok entry →
       ∃ pre, export_images env image_names = pre ++ [.render (.Done none)] ∧
         ∀ m, Action.render (View.Done m) ∉ pre) := by
  constructor
  · intro e hf
    simp [export_images_run, hf]
  · intro entry hf
    refine ⟨((image_names.map fun n => run_scales env entry.app_config
        entry.image_names_to_ids n (image_scales entry.app_config)).map
        Prod.fst).flatten, ?_, ?_⟩
    · simp [export_images, export_images_run, hf]
    · intro m hmem
      rw [List.mem_flatten] at hmem
      obtain ⟨l, hl, hmeml⟩ := hmem
      rw [List.mem_map] at hl
      obtain ⟨pr, hpr, rfl⟩ := hl
      rw [List.mem_map] at hpr
      obtain ⟨n, hn, rfl⟩ := hpr
      exact run_scales_no_done env entry.app_config entry.image_names_to_ids
        n _ m hmeml

/-- C9 witness: a failing initial fetch yields exactly one rendered
error, no outcomes and no done event. -/
theorem C9_witness :
    export_images_run sample_env_fetch_fail ["ic_close"] =
      ([.render (.Error "network down")], []) :=
  (C9_done_emitted_once sample_env_fetch_fail ["ic_close"]).1
    "network down" rfl

end Fxn
